import Mathlib

/-
Verification of pgmcp (src/pgmcp.py), a PostgreSQL introspection service.

The development shallowly embeds the program in two layers.

Pure layer: a `Catalog` models the visible state of the PostgreSQL
information_schema (schemata, tables with their columns and stored rows,
table constraints).  Each SQL template issued by the program is translated
into a Lean function on `Catalog` following the documented semantics of the
information_schema views it reads (`schemata`, `tables`, `columns`,
`table_constraints`, `key_column_usage`, `constraint_column_usage`).

Effectful layer: an `Engine` abstracts psycopg2 plus the backend: it maps a
statement and its bound parameters to either a result (column description
plus raw rows) or a raised exception, modelled by `PyResult`.  Each
operation of pgmcp.py (`list_schemas`, `list_tables`, `describe_table`,
`get_sample_data`, `execute_sql_query`, `get_database_overview`,
`get_database_structure`, `sql_generation_prompt`) is translated over an
arbitrary `Engine`, including its try/except error handling.

Resource handling of `execute_query` (the `with` blocks over the psycopg2
connection and cursor) is modelled separately by `run_execute_query`, which
tracks the final open/closed state of both resources.
-/

/-- Python str.strip character class: the ASCII whitespace stripped by
`str.strip()` (space, tab, newline, carriage return, vertical tab,
form feed). -/
def pyIsSpace (c : Char) : Bool :=
  c = ' ' || c = '\t' || c = '\n' || c = '\r' || c = Char.ofNat 11 || c = Char.ofNat 12

/-- Python `s.strip()`: remove leading and trailing whitespace. -/
def pyStrip (s : String) : String :=
  String.mk (((s.data.dropWhile pyIsSpace).reverse.dropWhile pyIsSpace).reverse)

/-- Python `s.upper()` restricted to ASCII case mapping, which is all the
validation in pgmcp.py depends on. -/
def pyUpper (s : String) : String :=
  String.mk (s.data.map Char.toUpper)

/-- Character-list version of Python `s.startswith(p)`: does the first list
start with the second one. -/
def startsChars : List Char → List Char → Bool
  | _, [] => true
  | [], _ :: _ => false
  | c :: cs, d :: ds => c = d && startsChars cs ds

/-- Python `s.startswith(p)`. -/
def pyStartsWith (s p : String) : Bool :=
  startsChars s.data p.data

/-- A single-quote character as a string (used to spell the quoted pieces of
the error messages and SQL text of pgmcp.py). -/
def sglq : String := String.mk [Char.ofNat 39]

/-- Result of running a piece of Python code: either a value or a raised
exception carrying `str(e)`. -/
inductive PyResult (α : Type) where
  | ok (a : α)
  | exn (msg : String)
deriving DecidableEq

/-- Sequencing of Python code: an exception aborts the rest of the block. -/
def PyResult.bind {α β : Type} : PyResult α → (α → PyResult β) → PyResult β
  | .exn e, _ => .exn e
  | .ok a, f => f a

/-- SQL values as they occur in pgmcp result rows and bound parameters. -/
inductive Value where
  | vstr (s : String)
  | vint (n : Int)
  | vbool (b : Bool)
  | vnull
deriving DecidableEq

/-- A result row as produced by psycopg2's RealDictCursor and `dict(row)`:
an ordered mapping from column name to value. -/
abbrev Row : Type := List (String × Value)

/-- What `cur.description` and `cur.fetchall()` expose after executing one
statement: the column names of the result description (if the statement was
data-returning) and the raw rows in engine order. -/
structure EngineResult where
  description : Option (List String)
  rows : List (List Value)
deriving DecidableEq

/-- The external backend reached through psycopg2: a statement and its
optional bound parameters either produce an `EngineResult` or raise. -/
def Engine : Type := String → Option (List Value) → PyResult EngineResult

/-- Lines 28-35 of pgmcp.py, result part.  `execute_query` runs one
statement; if the cursor has a description it materializes every fetched
row into a dict keyed by the column names (RealDictCursor pairs each value
with its column name, in result-description order), otherwise it returns
the empty list. -/
def execute_query (eng : Engine) (query : String) (params : Option (List Value)) :
    PyResult (List Row) :=
  match eng query params with
  | .exn e => .exn e
  | .ok res =>
    match res.description with
    | some cols => .ok (res.rows.map fun r => cols.zip r)
    | none => .ok []

/-- One invocation of `execute_query` seen from the resource side: which of
the three fallible steps (psycopg2.connect, cur.execute, fetch/materialize)
raises, and the engine result when none of them does. -/
structure ExecOutcome where
  connectErr : Option String
  executeErr : Option String
  fetchErr : Option String
  result : EngineResult
deriving DecidableEq

/-- Final state of the scoped resources of one `execute_query` call. -/
structure ResourceState where
  connOpened : Bool
  connClosed : Bool
  txnEnded : Bool
  curOpened : Bool
  curClosed : Bool
deriving DecidableEq

/-- Lines 20-35 of pgmcp.py, resource part.  `get_connection` wraps
psycopg2.connect errors; then `with get_connection() as conn` and
`with conn.cursor(...) as cur` scope the call.  Per the documented psycopg2
semantics, the connection context manager commits the transaction on normal
exit and rolls it back on an exception, but does NOT close the connection;
the cursor context manager closes the cursor on every exit.  No path calls
`conn.close()`. -/
def run_execute_query (o : ExecOutcome) : PyResult (List Row) × ResourceState :=
  match o.connectErr with
  | some e =>
    (.exn ("Failed to connect to database: " ++ e),
     { connOpened := false, connClosed := false, txnEnded := false,
       curOpened := false, curClosed := false })
  | none =>
    match o.executeErr with
    | some e =>
      (.exn e,
       { connOpened := true, connClosed := false, txnEnded := true,
         curOpened := true, curClosed := true })
    | none =>
      match o.fetchErr with
      | some e =>
        (.exn e,
         { connOpened := true, connClosed := false, txnEnded := true,
           curOpened := true, curClosed := true })
      | none =>
        ((match o.result.description with
          | some cols => .ok (o.result.rows.map fun r => cols.zip r)
          | none => .ok []),
         { connOpened := true, connClosed := false, txnEnded := true,
           curOpened := true, curClosed := true })

/-- Byte-wise lexicographic comparison on character lists (the order used to
model the ORDER BY clauses of the catalog queries). -/
def strLeChars : List Char → List Char → Bool
  | [], _ => true
  | _ :: _, [] => false
  | a :: as, b :: bs =>
    if a.toNat < b.toNat then true
    else if a.toNat = b.toNat then strLeChars as bs else false

/-- Lexicographic string order used for ORDER BY. -/
def strLe (a b : String) : Bool :=
  strLeChars a.data b.data

/-- A row of information_schema.schemata. -/
structure SchemaEnt where
  name : String
  owner : String
deriving DecidableEq

/-- A row of information_schema.columns for one table; `ordinal` is the
ordinal_position of the column. -/
structure Column where
  colName : String
  dataType : String
  isNullable : String
  columnDefault : Option String
  charMaxLen : Option Int
  numPrecision : Option Int
  numScale : Option Int
  ordinal : Nat
deriving DecidableEq

/-- One table of the catalog: its information_schema.tables row
(table_schema, table_name, table_type), its columns, and its stored rows
(the data returned by SELECT * in engine order). -/
structure Table where
  tschema : String
  tname : String
  ttype : String
  cols : List Column
  tdata : List (List Value)
deriving DecidableEq

/-- The four constraint kinds of information_schema.table_constraints. -/
inductive ConstraintKind where
  | primaryKey
  | foreignKey
  | uniq
  | chk
deriving DecidableEq

/-- One table constraint together with the column information the
information_schema views expose about it: `keyCols` are the constrained
columns (for FOREIGN KEY, the referencing columns), `checkCols` the columns
used by a CHECK expression, and `refTable`/`refCols` the referenced table
and columns of a FOREIGN KEY. -/
structure TableConstraint where
  cname : String
  kind : ConstraintKind
  cschema : String
  ctable : String
  keyCols : List String
  checkCols : List String
  refTable : String
  refCols : List String
deriving DecidableEq

/-- The catalog state visible through information_schema at call time. -/
structure Catalog where
  schemata : List SchemaEnt
  tables : List Table
  constraints : List TableConstraint
deriving DecidableEq

/-- The system schemas excluded by the WHERE clauses of pgmcp.py. -/
def systemSchemas : List String :=
  ["information_schema", "pg_catalog", "pg_toast"]

/-- Non-system schemata ordered by schema_name ascending: the FROM/WHERE/
ORDER BY spine shared by the list_schemas, overview and structure queries
(pgmcp.py lines 45-52, 200-212, 230-234). -/
def sortedSchemata (cat : Catalog) : List SchemaEnt :=
  (cat.schemata.filter (fun s => !systemSchemas.contains s.name)).insertionSort
    (fun a b => strLe a.name b.name = true)

/-- A result row of the list_schemas query. -/
structure SchemaRow where
  schema_name : String
  schema_owner : String
deriving DecidableEq

/-- Lines 45-56 of pgmcp.py: the rows returned by the list_schemas query. -/
def listSchemasRows (cat : Catalog) : List SchemaRow :=
  (sortedSchemata cat).map fun s => { schema_name := s.name, schema_owner := s.owner }

/-- Tables of one schema ordered by table_name ascending: the spine of the
list_tables query and of the per-schema query of get_database_structure
(pgmcp.py lines 71-79, 242-247). -/
def tablesInSchemaSorted (cat : Catalog) (schema_name : String) : List Table :=
  (cat.tables.filter (fun t => t.tschema == schema_name)).insertionSort
    (fun a b => strLe a.tname b.tname = true)

/-- A result row of the list_tables query. -/
structure TableRow where
  table_name : String
  table_type : String
  table_schema : String
deriving DecidableEq

/-- Lines 71-83 of pgmcp.py: the rows returned by the list_tables query for
one schema. -/
def listTablesRows (cat : Catalog) (schema_name : String) : List TableRow :=
  (tablesInSchemaSorted cat schema_name).map fun t =>
    { table_name := t.tname, table_type := t.ttype, table_schema := t.tschema }

/-- The base tables of one schema: the tables kept by the LEFT JOIN
condition of the overview query (`t.table_type = 'BASE TABLE'`). -/
def baseTablesOf (cat : Catalog) (sname : String) : List Table :=
  cat.tables.filter fun t => t.tschema == sname && t.ttype == "BASE TABLE"

/-- A result row of the get_database_overview query: COUNT(t.table_name)
and string_agg of the base-table names (NULL for an empty group). -/
structure OverviewRow where
  schema_name : String
  table_count : Nat
  tables : Option String
deriving DecidableEq

/-- Lines 200-212 of pgmcp.py: the rows returned by the overview query.
Every non-system schema becomes one group (LEFT JOIN + GROUP BY); the count
counts the non-null joined table names, i.e. the schema's BASE TABLE rows,
and string_agg lists them comma-separated ordered by name, NULL when the
schema has no base table. -/
def overviewRows (cat : Catalog) : List OverviewRow :=
  (sortedSchemata cat).map fun s =>
    let names := ((baseTablesOf cat s.name).map (fun t => t.tname)).insertionSort
      (fun a b => strLe a b = true)
    { schema_name := s.name,
      table_count := names.length,
      tables := if names.isEmpty then none else some (String.intercalate ", " names) }

/-- Columns of one table ordered by ordinal_position ascending: the spine
of the describe_table columns query and of the per-table query of
get_database_structure (pgmcp.py lines 100-113, 255-264). -/
def tableColumnsSorted (cat : Catalog) (table_name schema_name : String) : List Column :=
  ((cat.tables.filter (fun t => t.tname == table_name && t.tschema == schema_name)).flatMap
      (fun t => t.cols)).insertionSort
    (fun a b => a.ordinal ≤ b.ordinal)

/-- A result row of the describe_table columns query. -/
structure ColumnRow where
  column_name : String
  data_type : String
  is_nullable : String
  column_default : Option String
  character_maximum_length : Option Int
  numeric_precision : Option Int
  numeric_scale : Option Int
  ordinal_position : Nat
deriving DecidableEq

/-- Lines 100-113 of pgmcp.py: the rows of the describe_table columns
query. -/
def columnsRows (cat : Catalog) (table_name schema_name : String) : List ColumnRow :=
  (tableColumnsSorted cat table_name schema_name).map fun c =>
    { column_name := c.colName, data_type := c.dataType, is_nullable := c.isNullable,
      column_default := c.columnDefault, character_maximum_length := c.charMaxLen,
      numeric_precision := c.numPrecision, numeric_scale := c.numScale,
      ordinal_position := c.ordinal }

/-- The constraint_type text of information_schema.table_constraints. -/
def constraintKindText : ConstraintKind → String
  | .primaryKey => "PRIMARY KEY"
  | .foreignKey => "FOREIGN KEY"
  | .uniq => "UNIQUE"
  | .chk => "CHECK"

/-- The columns a constraint contributes to
information_schema.key_column_usage: the constrained columns of a PRIMARY
KEY or UNIQUE constraint, the referencing columns of a FOREIGN KEY, nothing
for a CHECK constraint. -/
def kcuOwn (c : TableConstraint) : List String :=
  match c.kind with
  | .chk => []
  | _ => c.keyCols

/-- The (table, column) pairs a constraint contributes to
information_schema.constraint_column_usage: per the PostgreSQL
documentation, for a FOREIGN KEY the columns that the foreign key
REFERENCES (in the referenced table); for a CHECK constraint the columns
used in the check expression (in the constraint's own table); for a UNIQUE
or PRIMARY KEY constraint the constrained columns themselves (again in the
constraint's own table). -/
def ccuOwn (c : TableConstraint) : List (String × String) :=
  match c.kind with
  | .foreignKey => c.refCols.map fun col => (c.refTable, col)
  | .chk => c.checkCols.map fun col => (c.ctable, col)
  | _ => c.keyCols.map fun col => (c.ctable, col)

/-- information_schema.key_column_usage restricted to the columns the
describe_table constraints query reads: (constraint_name, column_name). -/
def kcuRows (cat : Catalog) : List (String × String) :=
  cat.constraints.flatMap fun c => (kcuOwn c).map fun col => (c.cname, col)

/-- information_schema.constraint_column_usage restricted to the columns
the describe_table constraints query reads:
(constraint_name, table_name, column_name). -/
def ccuRows (cat : Catalog) : List (String × String × String) :=
  cat.constraints.flatMap fun c => (ccuOwn c).map fun p => (c.cname, p)

/-- LEFT JOIN padding: an empty match list contributes one all-NULL row. -/
def leftJoinPad {β : Type} (l : List β) (pad : β) : List β :=
  match l with
  | [] => [pad]
  | _ => l

/-- A result row of the describe_table constraints query
(ccu.table_name AS foreign_table_name, ccu.column_name AS
foreign_column_name); NULL values from the LEFT JOINs are `none`. -/
structure ConstraintRow where
  constraint_name : String
  constraint_type : String
  column_name : Option String
  foreign_table_name : Option String
  foreign_column_name : Option String
deriving DecidableEq

/-- Lines 116-129 of pgmcp.py: the describe_table constraints query.
table_constraints is filtered by table_name and table_schema, then LEFT
JOINed (on constraint_name alone) with key_column_usage and with
constraint_column_usage. -/
def constraintRows (cat : Catalog) (table_name schema_name : String) : List ConstraintRow :=
  (cat.constraints.filter (fun c => c.ctable == table_name && c.cschema == schema_name)).flatMap
    fun c =>
      let ks : List (Option String) :=
        leftJoinPad (((kcuRows cat).filter (fun p => p.1 == c.cname)).map
          (fun p => some p.2)) none
      let cu : List (Option String × Option String) :=
        leftJoinPad (((ccuRows cat).filter (fun p => p.1 == c.cname)).map
          (fun p => (some p.2.1, some p.2.2))) (none, none)
      ks.flatMap fun k => cu.map fun fc =>
        { constraint_name := c.cname, constraint_type := constraintKindText c.kind,
          column_name := k, foreign_table_name := fc.1, foreign_column_name := fc.2 }

/-- Lines 159-162 of pgmcp.py: the statement text built by get_sample_data.
schema_name and table_name are interpolated directly into the f-string;
the limit stays a %s placeholder. -/
def sampleStatement (schema_name table_name : String) : String :=
  "\n    SELECT * FROM " ++ schema_name ++ "." ++ table_name ++ " \n    LIMIT %s;\n    "

/-- The stored rows of the table named `schema_name.table_name` (empty when
the catalog has no such table). -/
def tableData (cat : Catalog) (schema_name table_name : String) : List (List Value) :=
  match cat.tables.find? (fun t => t.tschema == schema_name && t.tname == table_name) with
  | some t => t.tdata
  | none => []

/-- Semantics of the get_sample_data statement on the catalog: SELECT *
returns the stored rows and LIMIT keeps the first `limit` of them. -/
def sampleRows (cat : Catalog) (schema_name table_name : String) (limit : Nat) :
    List (List Value) :=
  (tableData cat schema_name table_name).take limit

/-- The get_database_structure columns query (lines 255-264) selects only
column_name, data_type, is_nullable, column_default, ordered by
ordinal_position. -/
structure GdsColumnRow where
  column_name : String
  data_type : String
  is_nullable : String
  column_default : Option String
deriving DecidableEq

/-- Lines 255-264 of pgmcp.py: the per-table columns query of
get_database_structure. -/
def gdsColumnsRows (cat : Catalog) (table_name schema_name : String) : List GdsColumnRow :=
  (tableColumnsSorted cat table_name schema_name).map fun c =>
    { column_name := c.colName, data_type := c.dataType,
      is_nullable := c.isNullable, column_default := c.columnDefault }

/-- The per-table record stored by get_database_structure:
`{"type": table_type, "columns": columns}`. -/
structure GdsTableEntry where
  ttype : String
  columns : List GdsColumnRow
deriving DecidableEq

/-- Lines 230-234 of pgmcp.py: the schema names returned by the schema
query of get_database_structure (non-system, ordered by name). -/
def gdsSchemaNames (cat : Catalog) : List String :=
  (sortedSchemata cat).map fun s => s.name

/-- The inner loop of get_database_structure (lines 251-269): one columns
query per table of the current schema.  The second component threads the
number of `execute_query` calls: it grows by one per table. -/
def gdsTablesLoop (cat : Catalog) (sn : String) (ts : List Table) (q : Nat) :
    List (String × GdsTableEntry) × Nat :=
  match ts with
  | [] => ([], q)
  | t :: rest =>
    let entry : String × GdsTableEntry :=
      (t.tname, { ttype := t.ttype, columns := gdsColumnsRows cat t.tname sn })
    let r := gdsTablesLoop cat sn rest (q + 1)
    (entry :: r.1, r.2)

/-- The outer loop of get_database_structure (lines 238-269): one tables
query per schema, then the inner loop over the returned tables. -/
def gdsSchemasLoop (cat : Catalog) (sns : List String) (q : Nat) :
    List (String × List (String × GdsTableEntry)) × Nat :=
  match sns with
  | [] => ([], q)
  | sn :: rest =>
    let ts := tablesInSchemaSorted cat sn
    let inner := gdsTablesLoop cat sn ts (q + 1)
    let outer := gdsSchemasLoop cat rest inner.2
    ((sn, inner.1) :: outer.1, outer.2)

/-- Lines 228-271 of pgmcp.py, success path: the database structure built
by get_database_structure together with the total number of statements
executed (the initial schema query plus everything the loops issue). -/
def get_database_structure_walk (cat : Catalog) :
    List (String × List (String × GdsTableEntry)) × Nat :=
  gdsSchemasLoop cat (gdsSchemaNames cat) 1

/-- JSON string escaping for the double quote and the backslash. -/
def jsonEscape (s : String) : String :=
  String.mk (s.data.flatMap fun c =>
    if c = '"' then ['\\', '"'] else if c = '\\' then ['\\', '\\'] else [c])

/-- JSON rendering of one value (the shape json.dumps gives each scalar). -/
def jsonOfValue : Value → String
  | .vstr s => "\"" ++ jsonEscape s ++ "\""
  | .vint n => toString n
  | .vbool b => if b then ("true") else ("false")
  | .vnull => "null"

/-- JSON rendering of one result row (a JSON object). -/
def jsonOfRow (r : Row) : String :=
  "\x7b" ++
    String.intercalate ", "
      (r.map fun p => "\"" ++ jsonEscape p.1 ++ "\": " ++ jsonOfValue p.2) ++
  "\x7d"

/-- Compact model of `json.dumps(results, ...)` on a list of result rows.
The indent=2 pretty-printing of json.dumps is abstracted away (no claim
depends on the whitespace of the serialized text); the output of a list
always begins with the bracket character. -/
def jsonDumps (rs : List Row) : String :=
  "[" ++ String.intercalate ", " (rs.map jsonOfRow) ++ "]"

/-- Python try/except wrapper shared by every pgmcp operation: return the
body's value, or the operation's error label concatenated with `str(e)`. -/
def pyCatch (label : String) (r : PyResult String) : String :=
  match r with
  | .ok s => s
  | .exn e => label ++ e

/-- The list_schemas SQL text (lines 45-52), spelled with `sglq` standing
for the single-quote character. -/
def listSchemasQuery : String :=
  "\n    SELECT \n        schema_name,\n        schema_owner\n    FROM information_schema.schemata \n    WHERE schema_name NOT IN (" ++
    sglq ++ "information_schema" ++ sglq ++ ", " ++ sglq ++ "pg_catalog" ++ sglq ++
    ", " ++ sglq ++ "pg_toast" ++ sglq ++ ")\n    ORDER BY schema_name;\n    "

/-- The list_tables SQL text (lines 71-79). -/
def listTablesQuery : String :=
  "\n    SELECT \n        table_name,\n        table_type,\n        table_schema\n    FROM information_schema.tables \n    WHERE table_schema = %s\n    ORDER BY table_name;\n    "

/-- The describe_table columns SQL text (lines 100-113). -/
def columnsQuery : String :=
  "\n    SELECT \n        column_name,\n        data_type,\n        is_nullable,\n        column_default,\n        character_maximum_length,\n        numeric_precision,\n        numeric_scale,\n        ordinal_position\n    FROM information_schema.columns \n    WHERE table_name = %s AND table_schema = %s\n    ORDER BY ordinal_position;\n    "

/-- The describe_table constraints SQL text (lines 116-129). -/
def constraintsQuery : String :=
  "\n    SELECT \n        tc.constraint_name,\n        tc.constraint_type,\n        kcu.column_name,\n        ccu.table_name AS foreign_table_name,\n        ccu.column_name AS foreign_column_name\n    FROM information_schema.table_constraints tc\n    LEFT JOIN information_schema.key_column_usage kcu \n        ON tc.constraint_name = kcu.constraint_name\n    LEFT JOIN information_schema.constraint_column_usage ccu \n        ON tc.constraint_name = ccu.constraint_name\n    WHERE tc.table_name = %s AND tc.table_schema = %s;\n    "

/-- The get_database_overview SQL text (lines 200-212). -/
def overviewQuery : String :=
  "\n    SELECT \n        s.schema_name,\n        COUNT(t.table_name) as table_count,\n        string_agg(t.table_name, " ++
    sglq ++ ", " ++ sglq ++
    " ORDER BY t.table_name) as tables\n    FROM information_schema.schemata s\n    LEFT JOIN information_schema.tables t \n        ON s.schema_name = t.table_schema \n        AND t.table_type = " ++
    sglq ++ "BASE TABLE" ++ sglq ++
    "\n    WHERE s.schema_name NOT IN (" ++
    sglq ++ "information_schema" ++ sglq ++ ", " ++ sglq ++ "pg_catalog" ++ sglq ++
    ", " ++ sglq ++ "pg_toast" ++ sglq ++
    ")\n    GROUP BY s.schema_name\n    ORDER BY s.schema_name;\n    "

/-- The get_database_structure schema SQL text (lines 230-234). -/
def gdsSchemasQuery : String :=
  "\n            SELECT schema_name FROM information_schema.schemata \n            WHERE schema_name NOT IN (" ++
    sglq ++ "information_schema" ++ sglq ++ ", " ++ sglq ++ "pg_catalog" ++ sglq ++
    ", " ++ sglq ++ "pg_toast" ++ sglq ++
    ")\n            ORDER BY schema_name;\n        "

/-- The get_database_structure tables SQL text (lines 242-247). -/
def gdsTablesQuery : String :=
  "\n                SELECT table_name, table_type \n                FROM information_schema.tables \n                WHERE table_schema = %s \n                ORDER BY table_name;\n            "

/-- The get_database_structure columns SQL text (lines 255-264). -/
def gdsColumnsQuery : String :=
  "\n                    SELECT \n                        column_name,\n                        data_type,\n                        is_nullable,\n                        column_default\n                    FROM information_schema.columns \n                    WHERE table_name = %s AND table_schema = %s\n                    ORDER BY ordinal_position;\n                "

/-- Lines 37-58 of pgmcp.py: the list_schemas operation. -/
def list_schemas (eng : Engine) : String :=
  pyCatch "Error listing schemas: "
    ((execute_query eng listSchemasQuery none).bind fun results =>
      .ok (jsonDumps results))

/-- Lines 60-85 of pgmcp.py: the list_tables operation. -/
def list_tables (eng : Engine) (schema_name : String) : String :=
  pyCatch ("Error listing tables in schema " ++ sglq ++ schema_name ++ sglq ++ ": ")
    ((execute_query eng listTablesQuery (some [Value.vstr schema_name])).bind fun results =>
      .ok (jsonDumps results))

/-- The JSON object describe_table serializes on success (its result dict
with the table name, schema name and the two row lists). -/
def jsonDescribe (table_name schema_name : String) (columns constraints : List Row) : String :=
  "\x7b\"table_name\": \"" ++ jsonEscape table_name ++
    "\", \"schema_name\": \"" ++ jsonEscape schema_name ++
    "\", \"columns\": " ++ jsonDumps columns ++
    ", \"constraints\": " ++ jsonDumps constraints ++ "\x7d"

/-- Lines 87-144 of pgmcp.py: the describe_table operation (two statements
inside one try block). -/
def describe_table (eng : Engine) (table_name schema_name : String) : String :=
  pyCatch ("Error describing table " ++ sglq ++ schema_name ++ "." ++ table_name ++ sglq ++ ": ")
    ((execute_query eng columnsQuery
        (some [Value.vstr table_name, Value.vstr schema_name])).bind fun columns =>
      (execute_query eng constraintsQuery
          (some [Value.vstr table_name, Value.vstr schema_name])).bind fun constraints =>
        .ok (jsonDescribe table_name schema_name columns constraints))

/-- Lines 146-168 of pgmcp.py: the get_sample_data operation.  The
statement text interpolates the two identifiers; the limit is the only
bound parameter. -/
def get_sample_data (eng : Engine) (table_name schema_name : String) (limit : Int) : String :=
  pyCatch ("Error getting sample data from " ++ sglq ++ schema_name ++ "." ++ table_name ++ sglq ++ ": ")
    ((execute_query eng (sampleStatement schema_name table_name)
        (some [Value.vint limit])).bind fun results =>
      .ok (jsonDumps results))

/-- The fixed rejection message of execute_sql_query (line 184). -/
def sqlOnlySelectMsg : String :=
  "Error: Only SELECT statements are allowed for security reasons."

/-- Lines 170-190 of pgmcp.py: the execute_sql_query operation.  The
statement is validated by `query.strip().upper().startswith('SELECT')`
before anything touches the engine; only then is it executed. -/
def execute_sql_query (eng : Engine) (query : String) : String :=
  if pyStartsWith (pyUpper (pyStrip query)) ("SELECT") = false then
    sqlOnlySelectMsg
  else
    pyCatch "Error executing query: "
      ((execute_query eng query none).bind fun results =>
        .ok (jsonDumps results))

/-- Lines 192-218 of pgmcp.py: the get_database_overview operation. -/
def get_database_overview (eng : Engine) : String :=
  pyCatch "Error getting database overview: "
    ((execute_query eng overviewQuery none).bind fun results =>
      .ok (jsonDumps results))

/-- Python dict lookup `row[k]` on a result row: a missing key raises
KeyError, whose str() is the quoted key. -/
def rowLookup (r : Row) (k : String) : PyResult Value :=
  match r.find? (fun p => p.1 == k) with
  | some p => .ok p.2
  | none => .exn (sglq ++ k ++ sglq)

/-- JSON rendering of a Python dict key built from a result value
(json.dumps stringifies non-string keys). -/
def jsonOfKey : Value → String
  | .vstr s => "\"" ++ jsonEscape s ++ "\""
  | .vint n => "\"" ++ toString n ++ "\""
  | .vbool b => if b then ("\"true\"") else ("\"false\"")
  | .vnull => "\"null\""

/-- The value stored per table by get_database_structure before
serialization: the table_type value and the columns rows. -/
abbrev GdsOpEntry : Type := Value × List Row

/-- JSON rendering of one schema's table dict of get_database_structure. -/
def jsonGdsSchema (ts : List (Value × GdsOpEntry)) : String :=
  "\x7b" ++
    String.intercalate ", "
      (ts.map fun p =>
        jsonOfKey p.1 ++ ": \x7b\"type\": " ++ jsonOfValue p.2.1 ++
          ", \"columns\": " ++ jsonDumps p.2.2 ++ "\x7d") ++
  "\x7d"

/-- JSON rendering of the whole database_structure dict. -/
def jsonGdsDump (st : List (Value × List (Value × GdsOpEntry))) : String :=
  "\x7b" ++
    String.intercalate ", "
      (st.map fun p => jsonOfKey p.1 ++ ": " ++ jsonGdsSchema p.2) ++
  "\x7d"

/-- The inner for-loop of get_database_structure over the rows of the
tables query (lines 251-269), at the engine level: per table row, read
table_name, run the columns query, read table_type, store the entry. -/
def gdsOpTableLoop (eng : Engine) (schemaNameV : Value) (trows : List Row) :
    PyResult (List (Value × GdsOpEntry)) :=
  match trows with
  | [] => .ok []
  | trow :: rest =>
    (rowLookup trow "table_name").bind fun tnameV =>
      (execute_query eng gdsColumnsQuery (some [tnameV, schemaNameV])).bind fun colRows =>
        (rowLookup trow "table_type").bind fun ttypeV =>
          (gdsOpTableLoop eng schemaNameV rest).bind fun restEntries =>
            .ok ((tnameV, (ttypeV, colRows)) :: restEntries)

/-- The outer for-loop of get_database_structure over the rows of the
schema query (lines 238-269), at the engine level. -/
def gdsOpSchemaLoop (eng : Engine) (srows : List Row) :
    PyResult (List (Value × List (Value × GdsOpEntry))) :=
  match srows with
  | [] => .ok []
  | srow :: rest =>
    (rowLookup srow "schema_name").bind fun snameV =>
      (execute_query eng gdsTablesQuery (some [snameV])).bind fun trows =>
        (gdsOpTableLoop eng snameV trows).bind fun entries =>
          (gdsOpSchemaLoop eng rest).bind fun restEntries =>
            .ok ((snameV, entries) :: restEntries)

/-- Lines 220-273 of pgmcp.py: the get_database_structure operation at the
engine level, with its surrounding try/except. -/
def get_database_structure_op (eng : Engine) : String :=
  pyCatch "Error getting database structure: "
    ((execute_query eng gdsSchemasQuery none).bind fun srows =>
      (gdsOpSchemaLoop eng srows).bind fun st =>
        .ok (jsonGdsDump st))

/-- The fixed text of the prompt template before the embedded overview
(lines 285-288 of pgmcp.py). -/
def promptHead : String :=
  "\nYou are helping to write SQL queries for a PostgreSQL database. Here is the current database structure:\n\n"

/-- The fixed text of the prompt template after the embedded overview
(lines 288-298 of pgmcp.py). -/
def promptTail : String :=
  "\n\nPlease use this information to write accurate SQL queries. When suggesting queries:\n1. Use the correct schema and table names\n2. Reference actual column names (use describe_table tool if needed)\n3. Follow PostgreSQL syntax\n4. Consider data types and constraints\n5. Suggest appropriate JOINs based on foreign key relationships\n\nWhat SQL query would you like help with?\n"

/-- Lines 275-300 of pgmcp.py: the sql_generation_prompt operation.  The
try body calls get_database_overview (which itself never raises: it catches
everything) and formats the template, which cannot raise either, so the
except branch is modelled by the same dead `pyCatch` over an always-ok
body. -/
def sql_generation_prompt (eng : Engine) : String :=
  pyCatch "Error generating SQL prompt: "
    (.ok (promptHead ++ get_database_overview eng ++ promptTail))

/-- An engine on which every statement raises with message `e` (a backend
that is down, or rejects everything). -/
def failEngine (e : String) : Engine :=
  fun _ _ => .exn e

/-- An engine that answers every statement with an empty result set and no
description (used to separate the validation path of execute_sql_query from
its execution path). -/
def emptyEngine : Engine :=
  fun _ _ => .ok { description := none, rows := [] }

/-- A recording engine: it rejects every statement with a message spelling
out the exact statement text and bound parameters it received, so equations
about operations run against it exhibit the requests they issue. -/
def probeEngine : Engine :=
  fun q p =>
    .exn ("QUERY=" ++ q ++ "; PARAMS=" ++
      (match p with
       | none => "None"
       | some vs =>
         "(" ++ String.intercalate ", " (vs.map fun v =>
           match v with
           | .vstr s => sglq ++ s ++ sglq
           | .vint n => toString n
           | .vbool b => if b then ("True") else ("False")
           | .vnull => "None") ++ ",)"))

/-- A successful run of execute_query: the backend is reachable, the
statement succeeds, one row is fetched. -/
def c2Outcome : ExecOutcome :=
  { connectErr := none, executeErr := none, fetchErr := none,
    result := { description := some ["x"], rows := [[Value.vint 1]] } }

/-- A catalog whose only non-system schema holds one VIEW and no base
table. -/
def viewOnlyCat : Catalog :=
  { schemata := [{ name := "public", owner := "postgres" }],
    tables := [{ tschema := "public", tname := "v", ttype := "VIEW",
                 cols := [], tdata := [] }],
    constraints := [] }

/-- A catalog with one base table and one view in the same schema. -/
def mixedCat : Catalog :=
  { schemata := [{ name := "public", owner := "postgres" }],
    tables := [{ tschema := "public", tname := "t", ttype := "BASE TABLE",
                 cols := [], tdata := [] },
               { tschema := "public", tname := "v", ttype := "VIEW",
                 cols := [], tdata := [] }],
    constraints := [] }

/-- A catalog holding a table whose only constraint is a single-column
primary key. -/
def pkOnlyCat : Catalog :=
  { schemata := [{ name := "public", owner := "postgres" }],
    tables := [{ tschema := "public", tname := "t", ttype := "BASE TABLE",
                 cols := [{ colName := "id", dataType := "integer",
                            isNullable := "NO", columnDefault := none,
                            charMaxLen := none, numPrecision := some 32,
                            numScale := some 0, ordinal := 1 }],
                 tdata := [] }],
    constraints := [{ cname := "t_pkey", kind := ConstraintKind.primaryKey,
                      cschema := "public", ctable := "t", keyCols := ["id"],
                      checkCols := [], refTable := "", refCols := [] }] }

/-- A catalog with two user schemas and one system schema. -/
def threeSchemaCat : Catalog :=
  { schemata := [{ name := "public", owner := "postgres" },
                 { name := "pg_catalog", owner := "postgres" },
                 { name := "app", owner := "bob" }],
    tables := [], constraints := [] }

/-- An engine returning one data row with a two-column description. -/
def c7Engine : Engine :=
  fun _ _ => .ok { description := some ["a", "b"],
                   rows := [[Value.vint 1, Value.vstr "x"]] }

/-- Totality and transitivity of the string order, via its cons unfolding. -/
theorem strLeChars_cons (a b : Char) (as bs : List Char) :
    strLeChars (a :: as) (b :: bs) = true ↔
      (a.toNat < b.toNat ∨ (a.toNat = b.toNat ∧ strLeChars as bs = true)) := by
  simp only [strLeChars]
  split
  next h => simp [h]
  next h =>
    split
    next h2 => simp [h, h2]
    next h2 => simp [h, h2]

theorem strLeChars_total : ∀ a b : List Char, strLeChars a b = true ∨ strLeChars b a = true := by
  intro a
  induction a with
  | nil => intro b; left; rfl
  | cons c cs ih =>
    intro b
    cases b with
    | nil => right; rfl
    | cons d ds =>
      rcases Nat.lt_trichotomy c.toNat d.toNat with h | h | h
      · left; rw [strLeChars_cons]; exact Or.inl h
      · rcases ih ds with h2 | h2
        · left; rw [strLeChars_cons]; exact Or.inr ⟨h, h2⟩
        · right; rw [strLeChars_cons]; exact Or.inr ⟨h.symm, h2⟩
      · right; rw [strLeChars_cons]; exact Or.inl h

theorem strLeChars_trans :
    ∀ a b c : List Char, strLeChars a b = true → strLeChars b c = true →
      strLeChars a c = true := by
  intro a
  induction a with
  | nil => intro b c _ _; rfl
  | cons x xs ih =>
    intro b c hab hbc
    cases b with
    | nil => simp [strLeChars] at hab
    | cons y ys =>
      cases c with
      | nil => simp [strLeChars] at hbc
      | cons z zs =>
        rw [strLeChars_cons] at hab hbc ⊢
        rcases hab with h | ⟨h, hr⟩ <;> rcases hbc with h2 | ⟨h2, hr2⟩
        · exact Or.inl (by omega)
        · exact Or.inl (by omega)
        · exact Or.inl (by omega)
        · exact Or.inr ⟨by omega, ih ys zs hr hr2⟩

theorem strLe_total (a b : String) : strLe a b = true ∨ strLe b a = true :=
  strLeChars_total a.data b.data

theorem strLe_trans {a b c : String} (h1 : strLe a b = true) (h2 : strLe b c = true) :
    strLe a c = true :=
  strLeChars_trans a.data b.data c.data h1 h2

/-- Sortedness of an insertion sort keyed by a string field. -/
theorem sorted_insertionSort_strLe {α : Type} (key : α → String) (l : List α) :
    List.Sorted (fun a b => strLe (key a) (key b) = true)
      (l.insertionSort (fun a b => strLe (key a) (key b) = true)) := by
  haveI : IsTotal α (fun a b => strLe (key a) (key b) = true) :=
    ⟨fun a b => strLe_total (key a) (key b)⟩
  haveI : IsTrans α (fun a b => strLe (key a) (key b) = true) :=
    ⟨fun _ _ _ h1 h2 => strLe_trans h1 h2⟩
  exact List.sorted_insertionSort _ l

/-- Sortedness of the insertion sort of columns by ordinal position. -/
theorem sorted_insertionSort_ordinal (l : List Column) :
    List.Sorted (fun a b : Column => a.ordinal ≤ b.ordinal)
      (l.insertionSort (fun a b => a.ordinal ≤ b.ordinal)) := by
  haveI : IsTotal Column (fun a b : Column => a.ordinal ≤ b.ordinal) :=
    ⟨fun a b => Nat.le_total a.ordinal b.ordinal⟩
  haveI : IsTrans Column (fun a b : Column => a.ordinal ≤ b.ordinal) :=
    ⟨fun _ _ _ h1 h2 => Nat.le_trans h1 h2⟩
  exact List.sorted_insertionSort _ l

/-- Appending on the right does not change startswith for a short enough
pattern. -/
theorem startsChars_append (a b p : List Char) (h : p.length ≤ a.length) :
    startsChars (a ++ b) p = startsChars a p := by
  induction p generalizing a with
  | nil => simp [startsChars]
  | cons d ds ih =>
    cases a with
    | nil => simp at h
    | cons c cs =>
      simp only [List.cons_append, startsChars, List.append_eq]
      rw [ih cs (by simpa using h)]

theorem pyStartsWith_append (a b p : String) (h : p.data.length ≤ a.data.length) :
    pyStartsWith (a ++ b) p = pyStartsWith a p := by
  unfold pyStartsWith
  rw [String.data_append]
  exact startsChars_append a.data b.data p.data h

/-- Shape of every pgmcp operation whose body is a single statement: the
result is either the serialized result set or the label followed by the
raised message. -/
theorem opShape (label : String) (r : PyResult (List Row)) :
    (∃ rs, pyCatch label (r.bind fun results => .ok (jsonDumps results)) = jsonDumps rs) ∨
    ∃ e2, pyCatch label (r.bind fun results => .ok (jsonDumps results)) = label ++ e2 := by
  cases r with
  | ok rs => exact Or.inl ⟨rs, rfl⟩
  | exn e => exact Or.inr ⟨e, rfl⟩

/-- Claim C1: execute_sql_query rejects a statement with the fixed
validation message, independently of the engine (so before any connection
attempt), exactly when the statement after stripping and upper-casing does
not start with SELECT; "DELETE FROM x" is rejected while "  select 1"
passes validation and is forwarded to the execution path. -/
theorem execute_sql_query_validation :
    (∀ q, pyStartsWith (pyUpper (pyStrip q)) ("SELECT") = false →
      ∀ eng, execute_sql_query eng q = sqlOnlySelectMsg) ∧
    (∀ q, (∀ eng, execute_sql_query eng q = sqlOnlySelectMsg) ↔
      pyStartsWith (pyUpper (pyStrip q)) ("SELECT") = false) ∧
    pyStartsWith (pyUpper (pyStrip ("DELETE FROM x"))) ("SELECT") = false ∧
    pyStartsWith (pyUpper (pyStrip ("  select 1"))) ("SELECT") = true ∧
    ∀ eng, execute_sql_query eng ("  select 1") =
      pyCatch "Error executing query: "
        ((execute_query eng ("  select 1") none).bind fun results =>
          .ok (jsonDumps results)) := by
  have hrej : ∀ q, pyStartsWith (pyUpper (pyStrip q)) ("SELECT") = false →
      ∀ eng, execute_sql_query eng q = sqlOnlySelectMsg := by
    intro q h eng
    simp [execute_sql_query, h]
  refine ⟨hrej, ?_, by decide, by decide, fun eng => rfl⟩
  intro q
  constructor
  · intro hall
    by_contra h
    have ht : pyStartsWith (pyUpper (pyStrip q)) ("SELECT") = true := by
      revert h
      cases pyStartsWith (pyUpper (pyStrip q)) ("SELECT") <;> simp
    have hcomp : execute_sql_query emptyEngine q = jsonDumps [] := by
      rw [execute_sql_query, if_neg (by simp [ht])]
      rfl
    have hmsg := hall emptyEngine
    rw [hcomp] at hmsg
    exact absurd hmsg (by decide)
  · intro h
    exact hrej q h

/-- Witness for C1 at concrete inputs. -/
theorem execute_sql_query_validation_witness :
    execute_sql_query (failEngine "boom") ("DELETE FROM x") = sqlOnlySelectMsg :=
  execute_sql_query_validation.1 "DELETE FROM x" (by decide) (failEngine "boom")

/-- Claim C2 (code behaviour at the failing input): a fully successful
execute_query call returns its rows with the cursor closed and the
transaction committed, but with the connection still open — psycopg2's
connection context manager does not close the connection, so the claim
that both resources are closed on every exit path fails on the normal
return path. -/
theorem run_execute_query_leaves_connection_open :
    (run_execute_query c2Outcome).1 = PyResult.ok [[("x", Value.vint 1)]] ∧
    (run_execute_query c2Outcome).2.connOpened = true ∧
    (run_execute_query c2Outcome).2.connClosed = false ∧
    (run_execute_query c2Outcome).2.txnEnded = true ∧
    (run_execute_query c2Outcome).2.curOpened = true ∧
    (run_execute_query c2Outcome).2.curClosed = true := by
  decide

/-- Claim C5: the statement built by get_sample_data interpolates
schema_name and table_name directly into the statement text and binds the
limit as the single parameter (exhibited by running the operation against
the recording engine), and the LIMIT semantics returns exactly
min(limit, row_count) rows. -/
theorem get_sample_data_statement_and_limit :
    (∀ t s (n : Int), get_sample_data probeEngine t s n =
      ("Error getting sample data from " ++ sglq ++ s ++ "." ++ t ++ sglq ++ ": ") ++
        ("QUERY=" ++ ("\n    SELECT * FROM " ++ s ++ "." ++ t ++ " \n    LIMIT %s;\n    ") ++
          "; PARAMS=" ++ ("(" ++ toString n ++ ",)"))) ∧
    (∀ s t, sampleStatement s t =
      "\n    SELECT * FROM " ++ s ++ "." ++ t ++ " \n    LIMIT %s;\n    ") ∧
    ∀ cat s t (n : Nat),
      (sampleRows cat s t n).length = min n (tableData cat s t).length := by
  refine ⟨fun t s n => rfl, fun s t => rfl, fun cat s t n => ?_⟩
  simp [sampleRows, List.length_take]

/-- Claim C7: when the engine returns a result, execute_query materializes
exactly the returned rows, in order, each keyed by the description's column
names, when there is a description; it returns the empty list when there is
none; and in both cases the result is an ok value, never an exception (an
empty result set is a valid non-error result). -/
theorem execute_query_materialization :
    ∀ (eng : Engine) (q : String) (p : Option (List Value)) (res : EngineResult),
      eng q p = PyResult.ok res →
      (∀ cols, res.description = some cols →
        execute_query eng q p = PyResult.ok (res.rows.map fun r => cols.zip r) ∧
        (res.rows.map fun r => cols.zip r).length = res.rows.length ∧
        ∀ r, r ∈ res.rows → cols.length ≤ r.length →
          (cols.zip r).map Prod.fst = cols) ∧
      (res.description = none → execute_query eng q p = PyResult.ok []) ∧
      ∀ e, execute_query eng q p ≠ PyResult.exn e := by
  intro eng q p res h
  refine ⟨?_, ?_, ?_⟩
  · intro cols hc
    refine ⟨by simp [execute_query, h, hc], by simp, ?_⟩
    intro r _ hlen
    exact List.map_fst_zip cols r hlen
  · intro hc
    simp [execute_query, h, hc]
  · intro e
    rcases hd : res.description with _ | cols <;> simp [execute_query, h, hd]

/-- Witness for C7: a concrete engine result materialized into dict rows. -/
theorem execute_query_materialization_witness :
    execute_query c7Engine ("q") none =
      PyResult.ok [[("a", Value.vint 1), ("b", Value.vstr "x")]] := by
  have h := (execute_query_materialization c7Engine "q" none
      { description := some ["a", "b"], rows := [[Value.vint 1, Value.vstr "x"]] }
      rfl).1 ["a", "b"] rfl
  exact h.1

/-- Claim C9: on an engine whose calls raise, each data operation returns
exactly its own label followed by the raised message; and on an arbitrary
engine each operation returns either a serialized payload or its labeled
error text — no exception propagates and no other shape is possible. -/
theorem operations_catch_and_label_errors :
    (∀ e, list_schemas (failEngine e) = "Error listing schemas: " ++ e) ∧
    (∀ e s, list_tables (failEngine e) s =
      ("Error listing tables in schema " ++ sglq ++ s ++ sglq ++ ": ") ++ e) ∧
    (∀ e t s, describe_table (failEngine e) t s =
      ("Error describing table " ++ sglq ++ s ++ "." ++ t ++ sglq ++ ": ") ++ e) ∧
    (∀ e t s (n : Int), get_sample_data (failEngine e) t s n =
      ("Error getting sample data from " ++ sglq ++ s ++ "." ++ t ++ sglq ++ ": ") ++ e) ∧
    (∀ e, execute_sql_query (failEngine e) ("SELECT 1") = "Error executing query: " ++ e) ∧
    (∀ e, get_database_overview (failEngine e) = "Error getting database overview: " ++ e) ∧
    (∀ e, get_database_structure_op (failEngine e) =
      "Error getting database structure: " ++ e) ∧
    (∀ eng, (∃ rs, list_schemas eng = jsonDumps rs) ∨
      ∃ e2, list_schemas eng = "Error listing schemas: " ++ e2) ∧
    (∀ eng s, (∃ rs, list_tables eng s = jsonDumps rs) ∨
      ∃ e2, list_tables eng s =
        ("Error listing tables in schema " ++ sglq ++ s ++ sglq ++ ": ") ++ e2) ∧
    (∀ eng t s, (∃ cs ks, describe_table eng t s = jsonDescribe t s cs ks) ∨
      ∃ e2, describe_table eng t s =
        ("Error describing table " ++ sglq ++ s ++ "." ++ t ++ sglq ++ ": ") ++ e2) ∧
    (∀ eng t s (n : Int), (∃ rs, get_sample_data eng t s n = jsonDumps rs) ∨
      ∃ e2, get_sample_data eng t s n =
        ("Error getting sample data from " ++ sglq ++ s ++ "." ++ t ++ sglq ++ ": ") ++ e2) ∧
    (∀ eng q, execute_sql_query eng q = sqlOnlySelectMsg ∨
      (∃ rs, execute_sql_query eng q = jsonDumps rs) ∨
      ∃ e2, execute_sql_query eng q = "Error executing query: " ++ e2) ∧
    (∀ eng, (∃ rs, get_database_overview eng = jsonDumps rs) ∨
      ∃ e2, get_database_overview eng = "Error getting database overview: " ++ e2) ∧
    ∀ eng, (∃ st, get_database_structure_op eng = jsonGdsDump st) ∨
      ∃ e2, get_database_structure_op eng = "Error getting database structure: " ++ e2 := by
  refine ⟨fun e => rfl, fun e s => rfl, fun e t s => rfl, fun e t s n => rfl,
    fun e => rfl, fun e => rfl, fun e => rfl, ?_, ?_, ?_, ?_, ?_, ?_, ?_⟩
  · intro eng
    exact opShape _ _
  · intro eng s
    exact opShape _ _
  · intro eng t s
    rcases h1 : execute_query eng columnsQuery
        (some [Value.vstr t, Value.vstr s]) with cs | e
    · rcases h2 : execute_query eng constraintsQuery
          (some [Value.vstr t, Value.vstr s]) with ks | e
      · exact Or.inl ⟨cs, ks, by simp [describe_table, h1, h2, PyResult.bind, pyCatch]⟩
      · exact Or.inr ⟨e, by simp [describe_table, h1, h2, PyResult.bind, pyCatch]⟩
    · exact Or.inr ⟨e, by simp [describe_table, h1, PyResult.bind, pyCatch]⟩
  · intro eng t s n
    exact opShape _ _
  · intro eng q
    by_cases hv : pyStartsWith (pyUpper (pyStrip q)) ("SELECT") = false
    · exact Or.inl (by simp [execute_sql_query, hv])
    · have ht : pyStartsWith (pyUpper (pyStrip q)) ("SELECT") = true := by
        revert hv
        cases pyStartsWith (pyUpper (pyStrip q)) ("SELECT") <;> simp
      refine Or.inr ?_
      have hbody : execute_sql_query eng q =
          pyCatch "Error executing query: "
            ((execute_query eng q none).bind fun results => .ok (jsonDumps results)) := by
        rw [execute_sql_query, if_neg (by simp [ht])]
      rw [hbody]
      exact opShape _ _
  · intro eng
    exact opShape _ _
  · intro eng
    rcases h1 : execute_query eng gdsSchemasQuery none with srows | e
    · rcases h2 : gdsOpSchemaLoop eng srows with st | e
      · exact Or.inl ⟨st, by
          simp [get_database_structure_op, h1, h2, PyResult.bind, pyCatch]⟩
      · exact Or.inr ⟨e, by
          simp [get_database_structure_op, h1, h2, PyResult.bind, pyCatch]⟩
    · exact Or.inr ⟨e, by simp [get_database_structure_op, h1, PyResult.bind, pyCatch]⟩

/-- Claim C10: when the overview fails, sql_generation_prompt still returns
the full template with the overview's labeled error string embedded
verbatim in the database-structure position, and on no engine does the
prompt operation return a result starting with its own error label. -/
theorem sql_generation_prompt_embeds_overview_error :
    (∀ e, sql_generation_prompt (failEngine e) =
      promptHead ++ ("Error getting database overview: " ++ e) ++ promptTail) ∧
    ∀ eng, pyStartsWith (sql_generation_prompt eng) ("Error generating SQL prompt") = false := by
  refine ⟨fun e => rfl, ?_⟩
  intro eng
  show pyStartsWith (promptHead ++ get_database_overview eng ++ promptTail) _ = false
  have h1 : ("Error generating SQL prompt" : String).data.length ≤ promptHead.data.length := by
    decide
  have h2 : ("Error generating SQL prompt" : String).data.length ≤
      (promptHead ++ get_database_overview eng).data.length := by
    rw [String.data_append, List.length_append]
    exact Nat.le_trans h1 (Nat.le_add_right _ _)
  rw [pyStartsWith_append _ _ _ h2, pyStartsWith_append _ _ _ h1]
  decide

/-- Claim C6: list_schemas returns rows sorted by schema_name ascending,
never contains a system schema, and for every non-system name S contains a
row named S exactly when the catalog has a schema named S. -/
theorem list_schemas_membership_and_order :
    ∀ cat : Catalog,
      List.Sorted (fun a b : SchemaRow => strLe a.schema_name b.schema_name = true)
        (listSchemasRows cat) ∧
      (∀ r, r ∈ listSchemasRows cat → systemSchemas.contains r.schema_name = false) ∧
      ∀ S, systemSchemas.contains S = false →
        ((∃ r, r ∈ listSchemasRows cat ∧ r.schema_name = S) ↔
          ∃ s, s ∈ cat.schemata ∧ s.name = S) := by
  intro cat
  refine ⟨?_, ?_, ?_⟩
  · unfold listSchemasRows
    rw [List.Sorted, List.pairwise_map]
    exact sorted_insertionSort_strLe (fun s : SchemaEnt => s.name) _
  · intro r hr
    obtain ⟨s, hs, rfl⟩ := List.mem_map.mp hr
    rw [sortedSchemata, (List.perm_insertionSort _ _).mem_iff] at hs
    have := (List.mem_filter.mp hs).2
    simpa using this
  · intro S hS
    constructor
    · rintro ⟨r, hr, rfl⟩
      obtain ⟨s, hs, rfl⟩ := List.mem_map.mp hr
      rw [sortedSchemata, (List.perm_insertionSort _ _).mem_iff] at hs
      exact ⟨s, (List.mem_filter.mp hs).1, rfl⟩
    · rintro ⟨s, hs, rfl⟩
      refine ⟨{ schema_name := s.name, schema_owner := s.owner }, ?_, rfl⟩
      apply List.mem_map_of_mem
      rw [sortedSchemata, (List.perm_insertionSort _ _).mem_iff]
      exact List.mem_filter.mpr ⟨hs, by simpa using hS⟩

/-- Witness for C6 at a concrete catalog: the user schema "app" appears in
the output while the system schema "pg_catalog" does not. -/
theorem list_schemas_membership_and_order_witness :
    (∃ r, r ∈ listSchemasRows threeSchemaCat ∧ r.schema_name = "app") ∧
    ¬ ∃ r, r ∈ listSchemasRows threeSchemaCat ∧ r.schema_name = "pg_catalog" := by
  constructor
  · exact ((list_schemas_membership_and_order threeSchemaCat).2.2 "app" (by decide)).mpr
      ⟨{ name := "app", owner := "bob" }, by decide, rfl⟩
  · rintro ⟨r, hr, hname⟩
    have h := (list_schemas_membership_and_order threeSchemaCat).2.1 r hr
    rw [hname] at h
    exact absurd h (by decide)

/-- Claim C3 counterexample: in a catalog whose only non-system schema
contains a single VIEW, the overview reports table_count = 0 (its LEFT
JOIN keeps only BASE TABLE rows) while list_tables returns one row, so the
two counts differ. -/
theorem overview_count_counterexample :
    (∃ r, r ∈ overviewRows viewOnlyCat ∧ r.schema_name = "public" ∧ r.table_count = 0) ∧
    (listTablesRows viewOnlyCat ("public")).length = 1 ∧
    ¬ ∀ r, r ∈ overviewRows viewOnlyCat →
        r.table_count = (listTablesRows viewOnlyCat r.schema_name).length := by
  decide

/-- Helper for C3: both counts reduce to counting the base tables of one
schema. -/
theorem overview_count_general (cat : Catalog) (sname : String) :
    (((baseTablesOf cat sname).map (fun t => t.tname)).insertionSort
        (fun a b => strLe a b = true)).length =
      ((listTablesRows cat sname).filter
        (fun tr => tr.table_type == "BASE TABLE")).length := by
  rw [(List.perm_insertionSort _ _).length_eq, List.length_map]
  rw [listTablesRows, tablesInSchemaSorted, baseTablesOf]
  rw [← List.countP_eq_length_filter, ← List.countP_eq_length_filter, List.countP_map,
    (List.perm_insertionSort _ _).countP_eq, List.countP_filter]
  refine List.countP_congr fun t _ => ?_
  simp [Function.comp, Bool.and_eq_true, and_comm]

/-- Claim C3(amended): the table_count of every overview row equals the
number of list_tables rows of that schema whose table_type is BASE TABLE
(not the full list_tables row count). -/
theorem overview_count_matches_base_tables :
    ∀ (cat : Catalog) (r : OverviewRow), r ∈ overviewRows cat →
      r.table_count =
        ((listTablesRows cat r.schema_name).filter
          (fun tr => tr.table_type == "BASE TABLE")).length := by
  intro cat r hr
  obtain ⟨s, _, rfl⟩ := List.mem_map.mp hr
  exact overview_count_general cat s.name

/-- Witness for C3(amended) at a catalog holding one base table and one
view. -/
theorem overview_count_matches_base_tables_witness :
    ({ schema_name := "public", table_count := 1, tables := some "t" } : OverviewRow).table_count =
      ((listTablesRows mixedCat
          ({ schema_name := "public", table_count := 1, tables := some "t" } :
            OverviewRow).schema_name).filter
        (fun tr => tr.table_type == "BASE TABLE")).length :=
  overview_count_matches_base_tables mixedCat
    { schema_name := "public", table_count := 1, tables := some "t" } (by decide)

/-- Helper: with pairwise-distinct constraint names, filtering a per-name
tagged flatMap by one constraint's name yields exactly that constraint's
rows (the join-on-name collapses to the owning constraint). -/
theorem flatMap_filter_tag {β : Type} (f : TableConstraint → List β) (tag : β → String)
    (hf : ∀ c b, b ∈ f c → tag b = c.cname) :
    ∀ (cs : List TableConstraint), (cs.map (fun c => c.cname)).Nodup →
      ∀ c, c ∈ cs → (cs.flatMap f).filter (fun b => tag b == c.cname) = f c := by
  intro cs
  induction cs with
  | nil =>
    intro _ c hc
    exact absurd hc (List.not_mem_nil c)
  | cons d rest ih =>
    intro hnd c hc
    rw [List.map_cons, List.nodup_cons] at hnd
    rw [List.flatMap_cons, List.filter_append]
    rcases List.mem_cons.mp hc with rfl | hmem
    · have hall : (f c).filter (fun b => tag b == c.cname) = f c :=
        List.filter_eq_self.mpr fun b hb => by simp [hf c b hb]
      have hnone : ((rest.flatMap f).filter (fun b => tag b == c.cname)) = [] := by
        rw [List.filter_eq_nil_iff]
        intro b hb
        obtain ⟨c2, hc2, hbc2⟩ := List.mem_flatMap.mp hb
        rw [hf c2 b hbc2]
        simp only [beq_iff_eq]
        intro heq
        exact hnd.1 (heq ▸ List.mem_map_of_mem _ hc2)
      rw [hall, hnone, List.append_nil]
    · have hdc : ¬ d.cname = c.cname := fun h =>
        hnd.1 (by rw [h]; exact List.mem_map_of_mem _ hmem)
      have hnone : (f d).filter (fun b => tag b == c.cname) = [] := by
        rw [List.filter_eq_nil_iff]
        intro b hb
        rw [hf d b hb]
        simpa using hdc
      rw [hnone, List.nil_append]
      exact ih hnd.2 c hmem

/-- Helper: the key_column_usage join rows of one constraint. -/
theorem kcuRows_filter (cat : Catalog)
    (hnd : (cat.constraints.map (fun c => c.cname)).Nodup)
    (c : TableConstraint) (hc : c ∈ cat.constraints) :
    (kcuRows cat).filter (fun p => p.1 == c.cname) =
      (kcuOwn c).map (fun col => (c.cname, col)) := by
  have h := flatMap_filter_tag (fun c2 => (kcuOwn c2).map fun col => (c2.cname, col))
    (fun p => p.1)
    (fun c2 b hb => by
      obtain ⟨col, _, rfl⟩ := List.mem_map.mp hb
      rfl)
    cat.constraints hnd c hc
  exact h

/-- Helper: the constraint_column_usage join rows of one constraint. -/
theorem ccuRows_filter (cat : Catalog)
    (hnd : (cat.constraints.map (fun c => c.cname)).Nodup)
    (c : TableConstraint) (hc : c ∈ cat.constraints) :
    (ccuRows cat).filter (fun p => p.1 == c.cname) =
      (ccuOwn c).map (fun p => (c.cname, p)) := by
  have h := flatMap_filter_tag (fun c2 => (ccuOwn c2).map fun p => (c2.cname, p))
    (fun p => p.1)
    (fun c2 b hb => by
      obtain ⟨p, _, rfl⟩ := List.mem_map.mp hb
      rfl)
    cat.constraints hnd c hc
  exact h

/-- Helper: membership in the LEFT JOIN padding. -/
theorem mem_leftJoinPad {β : Type} (l : List β) (pad x : β) (hx : x ∈ leftJoinPad l pad) :
    x = pad ∨ x ∈ l := by
  cases l with
  | nil =>
    simp [leftJoinPad] at hx
    exact Or.inl hx
  | cons a as =>
    exact Or.inr (by simpa [leftJoinPad] using hx)

/-- Helper: every row of the describe_table constraints result comes from
one constraint of the addressed table, carries that constraint's name and
type text, and its referenced fields are as constraint_column_usage
dictates: the referenced identity for a FOREIGN KEY, the constraint's own
table otherwise (or NULL padding when the constraint uses no columns). -/
theorem constraintRows_char (cat : Catalog)
    (hnd : (cat.constraints.map (fun c => c.cname)).Nodup)
    (t s : String) (r : ConstraintRow) (hr : r ∈ constraintRows cat t s) :
    ∃ c, c ∈ cat.constraints ∧ c.ctable = t ∧ c.cschema = s ∧
      r.constraint_name = c.cname ∧
      r.constraint_type = constraintKindText c.kind ∧
      ((c.kind = ConstraintKind.foreignKey →
        (∃ col, col ∈ c.refCols ∧ r.foreign_table_name = some c.refTable ∧
          r.foreign_column_name = some col) ∨
        (r.foreign_table_name = none ∧ r.foreign_column_name = none)) ∧
      (c.kind ≠ ConstraintKind.foreignKey →
        (r.foreign_table_name = some c.ctable ∧ ∃ col, r.foreign_column_name = some col) ∨
        (r.foreign_table_name = none ∧ r.foreign_column_name = none))) := by
  rw [constraintRows] at hr
  obtain ⟨c, hcf, hrc⟩ := List.mem_flatMap.mp hr
  have hcmem : c ∈ cat.constraints := List.mem_of_mem_filter hcf
  have hcp := (List.mem_filter.mp hcf).2
  rw [Bool.and_eq_true, beq_iff_eq, beq_iff_eq] at hcp
  simp only [kcuRows_filter cat hnd c hcmem, ccuRows_filter cat hnd c hcmem,
    List.map_map, Function.comp] at hrc
  obtain ⟨k, _, hrcu⟩ := List.mem_flatMap.mp hrc
  obtain ⟨fc, hfc, rfl⟩ := List.mem_map.mp hrcu
  refine ⟨c, hcmem, hcp.1, hcp.2, rfl, rfl, ?_, ?_⟩
  · intro hkfk
    rcases mem_leftJoinPad _ _ _ hfc with rfl | hfcm
    · exact Or.inr ⟨rfl, rfl⟩
    · obtain ⟨p, hp, rfl⟩ := List.mem_map.mp hfcm
      rw [ccuOwn, hkfk] at hp
      obtain ⟨col, hcol, rfl⟩ := List.mem_map.mp hp
      exact Or.inl ⟨col, hcol, rfl, rfl⟩
  · intro hnfk
    rcases mem_leftJoinPad _ _ _ hfc with rfl | hfcm
    · exact Or.inr ⟨rfl, rfl⟩
    · obtain ⟨p, hp, rfl⟩ := List.mem_map.mp hfcm
      rcases hk2 : c.kind with _ | _ | _ | _
      · rw [ccuOwn, hk2] at hp
        obtain ⟨col, _, rfl⟩ := List.mem_map.mp hp
        exact Or.inl ⟨rfl, col, rfl⟩
      · exact absurd hk2 hnfk
      · rw [ccuOwn, hk2] at hp
        obtain ⟨col, _, rfl⟩ := List.mem_map.mp hp
        exact Or.inl ⟨rfl, col, rfl⟩
      · rw [ccuOwn, hk2] at hp
        obtain ⟨col, _, rfl⟩ := List.mem_map.mp hp
        exact Or.inl ⟨rfl, col, rfl⟩

/-- Claim C4 counterexample: for a table whose only constraint is a
single-column primary key, the single PRIMARY KEY row of the constraints
result does NOT have empty referenced fields — constraint_column_usage
supplies the constraint's own table and column, so foreign_table_name and
foreign_column_name are populated with the table itself. -/
theorem describe_table_pk_row_counterexample :
    (∃ r, r ∈ constraintRows pkOnlyCat ("t") ("public") ∧
      r.constraint_type = "PRIMARY KEY" ∧ r.constraint_type ≠ "FOREIGN KEY" ∧
      r.foreign_table_name = some "t" ∧ r.foreign_column_name = some "id") ∧
    ¬ ∀ r, r ∈ constraintRows pkOnlyCat ("t") ("public") →
        r.constraint_type ≠ "FOREIGN KEY" →
        r.foreign_table_name = none ∧ r.foreign_column_name = none := by
  decide

/-- Claim C4(amended): in the describe_table constraints result (under
pairwise-distinct constraint names), a non-foreign-key row's referenced
fields are not left empty: they carry the constraint's own table (or the
NULL join padding when the constraint uses no columns); a foreign-key row
carries the referenced table of its constraint; and for a table whose only
constraint is a single-column primary key the result is exactly one
PRIMARY KEY row, with zero foreign-key rows, whose referenced fields name
the table and its key column. -/
theorem describe_table_constraints_referenced_fields :
    ∀ cat : Catalog, (cat.constraints.map (fun c => c.cname)).Nodup →
      ∀ t s : String,
      (∀ r, r ∈ constraintRows cat t s → r.constraint_type ≠ "FOREIGN KEY" →
        r.foreign_table_name = some t ∨
        (r.foreign_table_name = none ∧ r.foreign_column_name = none)) ∧
      (∀ r, r ∈ constraintRows cat t s → r.constraint_type = "FOREIGN KEY" →
        ∃ c, c ∈ cat.constraints ∧ c.kind = ConstraintKind.foreignKey ∧
          r.constraint_name = c.cname ∧
          (r.foreign_table_name = some c.refTable ∨ r.foreign_table_name = none)) ∧
      ∀ nm col : String,
        (cat.constraints.filter (fun c => c.ctable == t && c.cschema == s)) =
          [{ cname := nm, kind := ConstraintKind.primaryKey, cschema := s, ctable := t,
             keyCols := [col], checkCols := [], refTable := "", refCols := [] }] →
        constraintRows cat t s =
          [{ constraint_name := nm, constraint_type := "PRIMARY KEY",
             column_name := some col, foreign_table_name := some t,
             foreign_column_name := some col }] := by
  intro cat hnd t s
  refine ⟨?_, ?_, ?_⟩
  · intro r hr hnfk
    obtain ⟨c, _, hct, _, _, htype, _, hkind⟩ := constraintRows_char cat hnd t s r hr
    have hck : c.kind ≠ ConstraintKind.foreignKey := by
      intro hk
      rw [hk] at htype
      exact hnfk htype
    rcases hkind hck with ⟨hft, _⟩ | hnone
    · rw [hct] at hft
      exact Or.inl hft
    · exact Or.inr hnone
  · intro r hr hfk
    obtain ⟨c, hcmem, _, _, hname, htype, hkind, _⟩ := constraintRows_char cat hnd t s r hr
    have hck : c.kind = ConstraintKind.foreignKey := by
      rcases hk2 : c.kind with _ | _ | _ | _
      · rw [hk2] at htype
        rw [htype] at hfk
        exact absurd hfk (by decide)
      · rfl
      · rw [hk2] at htype
        rw [htype] at hfk
        exact absurd hfk (by decide)
      · rw [hk2] at htype
        rw [htype] at hfk
        exact absurd hfk (by decide)
    rcases hkind hck with ⟨col, _, hft, _⟩ | ⟨hft, _⟩
    · exact ⟨c, hcmem, hck, hname, Or.inl hft⟩
    · exact ⟨c, hcmem, hck, hname, Or.inr hft⟩
  · intro nm col hfilter
    have hmem : ({ cname := nm, kind := ConstraintKind.primaryKey, cschema := s, ctable := t, keyCols := [col], checkCols := [], refTable := "", refCols := [] } : TableConstraint) ∈ cat.constraints := by
      apply List.mem_of_mem_filter (p := fun c => c.ctable == t && c.cschema == s)
      rw [hfilter]
      exact List.mem_singleton.mpr rfl
    rw [constraintRows, hfilter]
    simp only [List.flatMap_cons, List.flatMap_nil, List.append_nil]
    rw [kcuRows_filter cat hnd _ hmem, ccuRows_filter cat hnd _ hmem]
    simp [leftJoinPad, kcuOwn, ccuOwn, constraintKindText]

/-- Witness for C4(amended) at the concrete primary-key-only catalog. -/
theorem describe_table_constraints_referenced_fields_witness :
    constraintRows pkOnlyCat ("t") ("public") =
      [{ constraint_name := "t_pkey", constraint_type := "PRIMARY KEY",
         column_name := some "id", foreign_table_name := some "t",
         foreign_column_name := some "id" }] :=
  ((describe_table_constraints_referenced_fields pkOnlyCat (by decide) "t" "public").2.2)
    "t_pkey" "id" (by decide)

/-- Helper: the inner loop of get_database_structure maps each table to its
entry and issues exactly one columns query per table. -/
theorem gdsTablesLoop_spec (cat : Catalog) (sn : String) :
    ∀ (ts : List Table) (q : Nat),
      gdsTablesLoop cat sn ts q =
        (ts.map fun t => (t.tname,
          { ttype := t.ttype, columns := gdsColumnsRows cat t.tname sn }), q + ts.length) := by
  intro ts
  induction ts with
  | nil =>
    intro q
    simp [gdsTablesLoop]
  | cons t rest ih =>
    intro q
    simp only [gdsTablesLoop, ih (q + 1), List.map_cons, List.length_cons]
    refine Prod.ext rfl ?_
    simp
    omega

/-- Helper: the outer loop of get_database_structure builds the mapping for
every schema name and issues one tables query per schema plus one columns
query per returned table. -/
theorem gdsSchemasLoop_spec (cat : Catalog) :
    ∀ (sns : List String) (q : Nat),
      gdsSchemasLoop cat sns q =
        (sns.map fun sn => (sn, (tablesInSchemaSorted cat sn).map fun t =>
          (t.tname, { ttype := t.ttype, columns := gdsColumnsRows cat t.tname sn })),
         q + sns.length + (sns.map fun sn => (tablesInSchemaSorted cat sn).length).sum) := by
  intro sns
  induction sns with
  | nil =>
    intro q
    simp [gdsSchemasLoop]
  | cons sn rest ih =>
    intro q
    simp only [gdsSchemasLoop, gdsTablesLoop_spec cat sn, ih, List.map_cons,
      List.length_cons, List.sum_cons]
    refine Prod.ext rfl ?_
    simp
    omega

/-- Claim C8: get_database_structure issues 1 + (number of returned
schemas) + (number of returned tables) queries, returns the mapping that
sends each returned schema name to the mapping from each of its table
names to that table's type and columns, its keys are exactly the
non-system schema names, and the columns feeding every entry are sorted by
ordinal position. -/
theorem get_database_structure_walk_shape :
    ∀ cat : Catalog,
      (get_database_structure_walk cat).2 =
        1 + (gdsSchemaNames cat).length +
          ((gdsSchemaNames cat).map fun sn => (tablesInSchemaSorted cat sn).length).sum ∧
      (get_database_structure_walk cat).1 =
        (gdsSchemaNames cat).map (fun sn => (sn,
          (tablesInSchemaSorted cat sn).map fun t =>
            (t.tname, { ttype := t.ttype, columns := gdsColumnsRows cat t.tname sn }))) ∧
      (get_database_structure_walk cat).1.map Prod.fst = gdsSchemaNames cat ∧
      ((gdsSchemaNames cat).all fun sn => !systemSchemas.contains sn) = true ∧
      ∀ tn sn2, List.Sorted (fun a b : Column => a.ordinal ≤ b.ordinal)
        (tableColumnsSorted cat tn sn2) := by
  intro cat
  have hloop := gdsSchemasLoop_spec cat (gdsSchemaNames cat) 1
  refine ⟨?_, ?_, ?_, ?_, ?_⟩
  · rw [get_database_structure_walk, hloop]
  · rw [get_database_structure_walk, hloop]
  · rw [get_database_structure_walk, hloop]
    simp [List.map_map, Function.comp_def]
  · rw [List.all_eq_true]
    intro sn hsn
    obtain ⟨s, hs, rfl⟩ := List.mem_map.mp hsn
    rw [sortedSchemata, (List.perm_insertionSort _ _).mem_iff] at hs
    exact (List.mem_filter.mp hs).2
  · intro tn sn2
    exact sorted_insertionSort_ordinal _
